import Mathlib

/-
Verification of the btc-broadcast-service HTTP/RPC glue layer
(src/main.rs).  The RPC backend is modelled as a record of the two
operations the service calls; errors carry the stringified message the
Rust code would obtain from the bitcoincore_rpc error Display impl.
-/

/-- Supported network variants of bitcoin::Network, as matched in main.rs. -/
inductive Network where
  | bitcoin
  | testnet
  | regtest
  | signet
deriving DecidableEq, Repr

/-- A transaction id as returned by send_raw_transaction: a 32-byte hash in
internal byte order (the Rust Txid type guarantees exactly 32 bytes). -/
def Txid : Type := { l : List Nat // l.length = 32 }

/-- Command-line arguments (struct Args in main.rs). -/
structure Args where
  network : String
  bitcoin_url : String
  rpc_username : String
  rpc_password : String
  host : String
  port : Nat

/-- struct BitcoinConfig in main.rs. -/
structure BitcoinConfig where
  network : Network
  network_url : String
  rpc_username : String
  rpc_password : String
deriving DecidableEq, Repr

/-- struct BroadcastRequest in main.rs. -/
structure BroadcastRequest where
  raw_tx : String

/-- struct BroadcastResponse in main.rs; txid is a byte sequence. -/
structure BroadcastResponse where
  status : String
  txid : Option (List Nat)
  current_block : Nat
  error : Option String
deriving DecidableEq, Repr

/-- The external RPC backend (bitcoincore_rpc client): the two operations the
service invokes.  Each operation either succeeds or fails with an error whose
Display text is the carried string. -/
structure RpcBackend where
  send_raw_transaction : String → Except String Txid
  get_block_count : Except String Nat

/-- Basic username/password authentication (Auth::UserPass in main.rs). -/
structure Auth where
  username : String
  password : String
deriving DecidableEq, Repr

/-- The network-to-port match in BroadcastService::new (main.rs lines 60-66). -/
def networkPort : Network → Nat
  | .bitcoin => 8332
  | .testnet => 18332
  | .regtest => 18443
  | .signet => 38332

/-- The connection parameters BroadcastService::new passes to Client::new. -/
structure ClientParams where
  url : String
  auth : Auth
deriving DecidableEq, Repr

/-- BroadcastService::new (main.rs lines 59-76): builds the client URL as
"<host>:<port>" and user/password authentication from the config. -/
def BroadcastService.new (config : BitcoinConfig) : ClientParams :=
  { url := config.network_url ++ ":" ++ toString (networkPort config.network)
    auth := { username := config.rpc_username, password := config.rpc_password } }

/-- BroadcastService::broadcast_transaction (main.rs lines 78-86): submit the
raw transaction, then reverse the 32 bytes of the returned txid. -/
def BroadcastService.broadcast_transaction (client : RpcBackend) (raw_tx : String) :
    Except String (List Nat) :=
  match client.send_raw_transaction raw_tx with
  | .error e => .error e
  | .ok txid => .ok txid.val.reverse

/-- BroadcastService::get_current_block_height (main.rs lines 88-92). -/
def BroadcastService.get_current_block_height (client : RpcBackend) :
    Except String Nat :=
  client.get_block_count

/-- The HTTP handler broadcast_transaction (main.rs lines 96-143), returning
the HTTP status code together with the JSON body. -/
def handleBroadcast (service : RpcBackend) (req : BroadcastRequest) :
    Nat × BroadcastResponse :=
  match BroadcastService.get_current_block_height service with
  | .error e =>
      (500,
        { status := "error"
          txid := none
          current_block := 0
          error := some ("Failed to get current block height: " ++ e) })
  | .ok height =>
      match BroadcastService.broadcast_transaction service req.raw_tx with
      | .ok txid =>
          (200,
            { status := "success"
              txid := some txid
              current_block := height
              error := none })
      | .error e =>
          (500,
            { status := "error"
              txid := none
              current_block := height
              error := some e })

/-- Rust str::to_lowercase as applied to the network argument: lowercase each
character (ASCII suffices for the four supported names). -/
def to_lowercase (s : String) : String :=
  String.mk (s.data.map Char.toLower)

/-- The network-name match in main (main.rs lines 166-175): lowercase the
argument, then compare against the four supported names. -/
def parseNetwork (s : String) : Option Network :=
  match to_lowercase s with
  | "bitcoin" => some .bitcoin
  | "testnet" => some .testnet
  | "regtest" => some .regtest
  | "signet" => some .signet
  | _ => none

/-- Outcome of the startup path of main (main.rs lines 154-204): either the
process returns early (with the value main returns and the message it logs),
or it builds the config and proceeds to bind the server. -/
inductive MainOutcome where
  | exited (result : Except String Unit) (logged : String)
  | startedServer (config : BitcoinConfig) (bindAddress : String)

/-- The pure control flow of main up to starting the HTTP server: parse the
network name; on an unsupported name log and return Ok(()); otherwise build
the BitcoinConfig and the bind address and start the server. -/
def mainFlow (args : Args) : MainOutcome :=
  match parseNetwork args.network with
  | none => .exited (.ok ()) ("Unsupported network: " ++ args.network)
  | some network =>
      .startedServer
        { network := network
          network_url := args.bitcoin_url
          rpc_username := args.rpc_username
          rpc_password := args.rpc_password }
        (args.host ++ ":" ++ toString args.port)

/-- A response of the success shape: status success, txid present, no error. -/
def successShape (r : BroadcastResponse) : Prop :=
  r.status = "success" ∧ r.txid ≠ none ∧ r.error = none

/-- A response of the error shape: status error, error present, no txid. -/
def errorShape (r : BroadcastResponse) : Prop :=
  r.status = "error" ∧ r.error ≠ none ∧ r.txid = none

/-- Any value returned by broadcast_transaction has exactly 32 bytes, since
the backend txid is a 32-byte hash and reversal preserves length. -/
theorem broadcast_transaction_length (client : RpcBackend) (raw_tx : String)
    (l : List Nat) (h : BroadcastService.broadcast_transaction client raw_tx = .ok l) :
    l.length = 32 := by
  unfold BroadcastService.broadcast_transaction at h
  cases hs : client.send_raw_transaction raw_tx with
  | error e => rw [hs] at h; exact Except.noConfusion h
  | ok txid =>
      rw [hs] at h
      injection h with h
      rw [← h, List.length_reverse]
      exact txid.property

/-- A network name whose lowercasing is none of the four supported names is
rejected by the network match in main. -/
theorem parseNetwork_eq_none (s : String)
    (h : to_lowercase s ∉ (["bitcoin", "testnet", "regtest", "signet"] : List String)) :
    parseNetwork s = none := by
  unfold parseNetwork
  split <;> simp_all

/-- Claim C1: for every transaction accepted by the RPC backend,
BroadcastService::broadcast_transaction returns the backend-reported
transaction identifier with its byte sequence exactly reversed. -/
theorem c1_broadcast_reverses_txid (client : RpcBackend) (raw_tx : String)
    (txid : Txid) (h : client.send_raw_transaction raw_tx = .ok txid) :
    BroadcastService.broadcast_transaction client raw_tx = .ok txid.val.reverse := by
  unfold BroadcastService.broadcast_transaction
  rw [h]

/-- The backend of the spec example: submit returns the internal-order id
0x01, 0x02, ..., 0x20 and the height lookup returns 100. -/
def exampleTxid : Txid :=
  ⟨[1, 2, 3, 4, 5, 6, 7, 8, 9, 10, 11, 12, 13, 14, 15, 16, 17, 18, 19, 20,
    21, 22, 23, 24, 25, 26, 27, 28, 29, 30, 31, 32], by decide⟩

def c1Backend : RpcBackend :=
  { send_raw_transaction := fun _ => .ok exampleTxid
    get_block_count := .ok 100 }

/-- Claim C1 witness: the spec example, backend id 0x01..0x20 comes back
reversed as 0x20..0x01. -/
theorem c1_witness :
    BroadcastService.broadcast_transaction c1Backend "0102" =
      .ok [32, 31, 30, 29, 28, 27, 26, 25, 24, 23, 22, 21, 20, 19, 18, 17,
           16, 15, 14, 13, 12, 11, 10, 9, 8, 7, 6, 5, 4, 3, 2, 1] :=
  (c1_broadcast_reverses_txid c1Backend "0102" exampleTxid rfl).trans
    (congrArg Except.ok (by decide))

/-- Claim C2: if the block-height lookup fails, the handler responds with
HTTP 500, status error, current_block 0, no txid and a non-null error
message, and the response does not depend on the submit operation at all
(the submit step is never invoked). -/
theorem c2_height_failure_short_circuits (service : RpcBackend)
    (req : BroadcastRequest) (e : String)
    (h : service.get_block_count = .error e) :
    handleBroadcast service req =
      (500,
        { status := "error"
          txid := none
          current_block := 0
          error := some ("Failed to get current block height: " ++ e) }) ∧
    ∀ send : String → Except String Txid,
      handleBroadcast { service with send_raw_transaction := send } req =
        handleBroadcast service req := by
  constructor
  · unfold handleBroadcast BroadcastService.get_current_block_height
    rw [h]
  · intro send
    unfold handleBroadcast BroadcastService.get_current_block_height
    rw [h]

def c2Backend : RpcBackend :=
  { send_raw_transaction := fun _ => .ok exampleTxid
    get_block_count := .error "boom" }

/-- Claim C2 witness: a backend whose height lookup fails although its submit
would succeed still yields the 500 error response with current_block 0. -/
theorem c2_witness :
    handleBroadcast c2Backend { raw_tx := "ff" } =
      (500,
        { status := "error"
          txid := none
          current_block := 0
          error := some ("Failed to get current block height: " ++ "boom") }) :=
  (c2_height_failure_short_circuits c2Backend { raw_tx := "ff" } "boom" rfl).1

/-- Claim C3: every handler response has exactly one of the success shape
(status success, txid present, error absent) and the error shape (status
error, error present, txid absent). -/
theorem c3_response_mutual_exclusivity (service : RpcBackend) (req : BroadcastRequest) :
    (successShape (handleBroadcast service req).2 ∧
      ¬ errorShape (handleBroadcast service req).2) ∨
    (errorShape (handleBroadcast service req).2 ∧
      ¬ successShape (handleBroadcast service req).2) := by
  unfold handleBroadcast BroadcastService.get_current_block_height
  cases hg : service.get_block_count with
  | error e =>
      right
      simp [successShape, errorShape]
  | ok height =>
      cases hb : BroadcastService.broadcast_transaction service req.raw_tx with
      | ok t =>
          left
          simp [successShape, errorShape]
      | error e =>
          right
          simp [successShape, errorShape]

/-- Claim C4: if the height lookup succeeds with some height and the submit
step fails, the handler responds with HTTP 500, status error, current_block
equal to that height, no txid and a non-null error; moreover HTTP 200 is
returned only when the broadcast succeeded. -/
theorem c4_submit_failure_keeps_height (service : RpcBackend) (req : BroadcastRequest)
    (height : Nat) (e : String)
    (hh : service.get_block_count = .ok height)
    (hs : service.send_raw_transaction req.raw_tx = .error e) :
    handleBroadcast service req =
      (500,
        { status := "error"
          txid := none
          current_block := height
          error := some e }) ∧
    ∀ (s : RpcBackend) (r : BroadcastRequest),
      (handleBroadcast s r).1 = 200 →
        (handleBroadcast s r).2.status = "success" ∧
        ∃ t, BroadcastService.broadcast_transaction s r.raw_tx = .ok t := by
  constructor
  · unfold handleBroadcast BroadcastService.get_current_block_height
      BroadcastService.broadcast_transaction
    rw [hh, hs]
  · intro s r h200
    unfold handleBroadcast BroadcastService.get_current_block_height at h200 ⊢
    cases hg : s.get_block_count with
    | error e2 => rw [hg] at h200; simp at h200
    | ok height2 =>
        rw [hg] at h200
        cases hb : BroadcastService.broadcast_transaction s r.raw_tx with
        | error e2 => rw [hb] at h200; simp at h200
        | ok t => exact ⟨rfl, t, rfl⟩

def c4Backend : RpcBackend :=
  { send_raw_transaction := fun _ => .error "bad tx"
    get_block_count := .ok 100 }

/-- Claim C4 witness: height lookup yields 100, submit fails with bad tx,
the response is 500 with current_block 100 and no txid. -/
theorem c4_witness :
    handleBroadcast c4Backend { raw_tx := "ff" } =
      (500,
        { status := "error"
          txid := none
          current_block := 100
          error := some "bad tx" }) :=
  (c4_submit_failure_keeps_height c4Backend { raw_tx := "ff" } 100 "bad tx" rfl rfl).1

def c5Backend : RpcBackend :=
  { send_raw_transaction := fun _ => .error "unused"
    get_block_count := .error "connection refused" }

/-- Claim C5 counterexample: when the height lookup fails with backend text
connection refused, the error field is NOT that raw text; the handler
prepends a fixed prefix, so the response of the spec example is wrong. -/
theorem c5_counterexample :
    (handleBroadcast c5Backend { raw_tx := "00" }).2.error ≠ some "connection refused" ∧
    (handleBroadcast c5Backend { raw_tx := "00" }).2.error =
      some "Failed to get current block height: connection refused" := by
  exact ⟨by decide, by decide⟩

/-- Claim C5 amended: when the height lookup fails with backend error text e,
the response is HTTP 500 with status error, txid null, current_block 0 and
error equal to the backend text prefixed by a fixed message. -/
theorem c5_height_error_prefixed (service : RpcBackend) (req : BroadcastRequest)
    (e : String) (h : service.get_block_count = .error e) :
    handleBroadcast service req =
      (500,
        { status := "error"
          txid := none
          current_block := 0
          error := some ("Failed to get current block height: " ++ e) }) := by
  unfold handleBroadcast BroadcastService.get_current_block_height
  rw [h]

/-- Claim C5 witness: the amended statement at the concrete backend error
connection refused. -/
theorem c5_witness :
    handleBroadcast c5Backend { raw_tx := "00" } =
      (500,
        { status := "error"
          txid := none
          current_block := 0
          error := some ("Failed to get current block height: " ++ "connection refused") }) :=
  c5_height_error_prefixed c5Backend { raw_tx := "00" } "connection refused" rfl

/-- Claim C6: BroadcastService::new maps the four network variants to their
fixed RPC ports (main 8332, testnet 18332, regtest 18443, signet 38332) and
builds the client from the URL <host>:<port> with user/password auth. -/
theorem c6_new_ports_and_url (config : BitcoinConfig) :
    networkPort .bitcoin = 8332 ∧
    networkPort .testnet = 18332 ∧
    networkPort .regtest = 18443 ∧
    networkPort .signet = 38332 ∧
    (BroadcastService.new config).url =
      config.network_url ++ ":" ++ toString (networkPort config.network) ∧
    (BroadcastService.new config).auth.username = config.rpc_username ∧
    (BroadcastService.new config).auth.password = config.rpc_password :=
  ⟨rfl, rfl, rfl, rfl, rfl, rfl, rfl⟩

/-- Claim C7: for every network-name argument outside the four supported
names, main returns early: it logs the unsupported network and never reaches
the branch that constructs the config and starts the HTTP server. -/
theorem c7_unsupported_network_terminates (args : Args)
    (h : to_lowercase args.network ∉ (["bitcoin", "testnet", "regtest", "signet"] : List String)) :
    mainFlow args = .exited (.ok ()) ("Unsupported network: " ++ args.network) ∧
    ∀ (config : BitcoinConfig) (bindAddress : String),
      mainFlow args ≠ .startedServer config bindAddress := by
  have hp := parseNetwork_eq_none args.network h
  constructor
  · unfold mainFlow
    rw [hp]
  · intro config bindAddress
    unfold mainFlow
    rw [hp]
    intro hcon
    exact MainOutcome.noConfusion hcon

/-- The default startup arguments with network set to moonnet. -/
def moonnetArgs : Args :=
  { network := "moonnet"
    bitcoin_url := "http://127.0.0.1"
    rpc_username := "user"
    rpc_password := "password"
    host := "127.0.0.1"
    port := 5558 }

/-- Claim C7 witness: startup with network moonnet exits before the server
branch. -/
theorem c7_witness :
    mainFlow moonnetArgs = .exited (.ok ()) ("Unsupported network: " ++ "moonnet") :=
  (c7_unsupported_network_terminates moonnetArgs (by decide)).1

/-- Claim C8: whenever the handler reports status success, the txid field is
present and holds exactly 32 bytes, so the copy into the fixed 32-byte array
in the handler cannot be a length mismatch. -/
theorem c8_success_txid_length (service : RpcBackend) (req : BroadcastRequest)
    (h : (handleBroadcast service req).2.status = "success") :
    ∃ l, (handleBroadcast service req).2.txid = some l ∧ l.length = 32 := by
  unfold handleBroadcast BroadcastService.get_current_block_height at h ⊢
  cases hg : service.get_block_count with
  | error e => rw [hg] at h; simp at h
  | ok height =>
      rw [hg] at h
      cases hb : BroadcastService.broadcast_transaction service req.raw_tx with
      | error e => rw [hb] at h; simp at h
      | ok t =>
          exact ⟨t, rfl, broadcast_transaction_length service req.raw_tx t hb⟩

def c8Backend : RpcBackend :=
  { send_raw_transaction := fun _ => .ok exampleTxid
    get_block_count := .ok 7 }

/-- Claim C8 witness: a successful broadcast yields a txid of 32 bytes. -/
theorem c8_witness :
    ∃ l, (handleBroadcast c8Backend { raw_tx := "ab" }).2.txid = some l ∧ l.length = 32 :=
  c8_success_txid_length c8Backend { raw_tx := "ab" } (by decide)

/-- Claim C9: the network name is matched case-insensitively: the argument is
lowercased before comparison, so BITCOIN, Regtest, SigNet and TESTNET select
the corresponding networks, and two arguments with the same lowercasing
select the same network. -/
theorem c9_network_case_insensitive :
    parseNetwork "BITCOIN" = some .bitcoin ∧
    parseNetwork "Regtest" = some .regtest ∧
    parseNetwork "SigNet" = some .signet ∧
    parseNetwork "TESTNET" = some .testnet ∧
    ∀ s t : String, to_lowercase s = to_lowercase t → parseNetwork s = parseNetwork t := by
  refine ⟨by decide, by decide, by decide, by decide, ?_⟩
  intro s t h
  unfold parseNetwork
  rw [h]

/-- Claim C9 witness: mixed-case and lowercase spellings of regtest parse to
the same network. -/
theorem c9_witness : parseNetwork "ReGtEsT" = parseNetwork "regtest" :=
  c9_network_case_insensitive.2.2.2.2 "ReGtEsT" "regtest" (by decide)

/-- Claim C10: on an unsupported network name, main logs the unsupported
network message and returns Ok(()), so the process exits with success status
rather than a non-zero code. -/
theorem c10_unsupported_network_returns_ok (args : Args)
    (h : to_lowercase args.network ∉ (["bitcoin", "testnet", "regtest", "signet"] : List String)) :
    mainFlow args = .exited (.ok ()) ("Unsupported network: " ++ args.network) := by
  unfold mainFlow
  rw [parseNetwork_eq_none args.network h]

/-- The default startup arguments with network set to MOONNET. -/
def allCapsMoonnetArgs : Args :=
  { network := "MOONNET"
    bitcoin_url := "http://127.0.0.1"
    rpc_username := "user"
    rpc_password := "password"
    host := "127.0.0.1"
    port := 5558 }

/-- Claim C10 witness: startup with network MOONNET returns the Ok unit
value after logging. -/
theorem c10_witness :
    mainFlow allCapsMoonnetArgs = .exited (.ok ()) ("Unsupported network: " ++ "MOONNET") :=
  c10_unsupported_network_returns_ok allCapsMoonnetArgs (by decide)
